import Mathlib

/-!
Verification of `fontfit.js`: a utility that binary-searches the largest
integer pixel font size at which a target element's content fits inside a
container, and a controller that re-runs that search on resize/mutation
signals (debounced), with `refit()` / `disconnect()` lifecycle operations.

The repository contains two variants of the same utility:
- an "in-place" variant that probes by mutating the real target and, at the
  end, returns `best - 10`;
- an "offscreen-clone" variant that probes a detached clone and returns
  `best` exactly.

The embedding below models:
- JS numbers that reach `Math.floor` as rationals (`ℚ`) with `Int.floor`;
- the DOM measurement reads as an abstract fit oracle `fits : Int → Bool`
  (the spec's Oracle contract `fits(size) -> bool`); a throwing measurement
  read is modelled by an oracle into `Except E Bool`;
- the `while (lo <= hi)` loop as a fuel-indexed structural recursion
  `searchGo`, entered with fuel `(hi + 1 - lo).toNat`, which is proven
  sufficient (the loop terminates);
- element state touched by the code (`style.fontSize`, the
  `dataset.fittedFontPx` marker) as a small record, and the controller
  (busy flag, observers, debounce timer, rAF, font-load hook) as an
  explicit state machine driven by events.
-/

/-- `Math.floor((lo + hi) / 2)` on integers: floor division by 2. -/
def mid2 (lo hi : Int) : Int :=
  (lo + hi).fdiv 2

/-- The body of the `while (lo <= hi)` binary-search loop shared by both
variants (src/fontfit.js lines 44-56 and 178-189), as a fuel-indexed
structural recursion.  `best` is the last probed size that fit (initially
`lo`).  If `fits mid` the loop sets `best = mid; lo = mid + 1`, otherwise
`hi = mid - 1`. -/
def searchGo (fits : Int → Bool) : Nat → Int → Int → Int → Int
  | 0, _, _, best => best
  | fuel + 1, lo, hi, best =>
    if lo ≤ hi then
      if fits (mid2 lo hi) then
        searchGo fits fuel (mid2 lo hi + 1) hi (mid2 lo hi)
      else
        searchGo fits fuel lo (mid2 lo hi - 1) best
    else best

/-- The binary-search loop entered with enough fuel for every iteration
(the measure `hi + 1 - lo` strictly decreases each iteration, so this fuel
is sufficient; see `searchGo_fuel_irrel`). -/
def searchBest (fits : Int → Bool) (lo hi best : Int) : Int :=
  searchGo fits (hi + 1 - lo).toNat lo hi best

/-- The list of sizes probed by the loop (each probe is a `setFontSizePx`
write followed by a layout read on the measured element). -/
def searchProbesGo (fits : Int → Bool) : Nat → Int → Int → List Int
  | 0, _, _ => []
  | fuel + 1, lo, hi =>
    if lo ≤ hi then
      if fits (mid2 lo hi) then
        mid2 lo hi :: searchProbesGo fits fuel (mid2 lo hi + 1) hi
      else
        mid2 lo hi :: searchProbesGo fits fuel lo (mid2 lo hi - 1)
    else []

/-- Probe trace of the search loop at full fuel. -/
def searchProbes (fits : Int → Bool) (lo hi : Int) : List Int :=
  searchProbesGo fits (hi + 1 - lo).toNat lo hi

/-- The search loop against a measurement oracle whose layout reads may
throw: the first thrown exception aborts the loop. -/
def searchGoE {E : Type} (fits : Int → Except E Bool) :
    Nat → Int → Int → Int → Except E Int
  | 0, _, _, best => Except.ok best
  | fuel + 1, lo, hi, best =>
    if lo ≤ hi then
      match fits (mid2 lo hi) with
      | Except.error e => Except.error e
      | Except.ok true => searchGoE fits fuel (mid2 lo hi + 1) hi (mid2 lo hi)
      | Except.ok false => searchGoE fits fuel lo (mid2 lo hi - 1) best
    else Except.ok best

/-- Entry point of the possibly-throwing search loop. -/
def searchBestE {E : Type} (fits : Int → Except E Bool) (lo hi best : Int) :
    Except E Int :=
  searchGoE fits (hi + 1 - lo).toNat lo hi best

/-- `elementFits` (src/fontfit.js line 14-18): the in-place variant's fit
test — the target must fit within both the container's client width and
client height, given the target's scroll metrics at the probed size. -/
def elementFits (scrollW scrollH cw ch : Int) : Bool :=
  scrollW ≤ cw && scrollH ≤ ch

/-- The clone variant's fit test (src/fontfit.js line 183): height overflow
only — `probe.scrollHeight <= ch` — since the measurement box pins the
width to the container's width. -/
def cloneFits (scrollH ch : Int) : Bool :=
  scrollH ≤ ch

/-- Observable trace of one call to the clone variant's
`computeBestFontSize`: its result, the sizes it probed, and whether it
created the offscreen measurement box and clone. -/
structure CloneComputeT where
  result : ℚ
  probes : List Int
  cloneCreated : Bool
  deriving DecidableEq

/-- Observable trace of one call to the in-place variant's
`computeBestFontSize`: its result, the sizes it probed, and whether it
wrote any style to the real target (the pre-loop `display`/`width` writes
and the per-probe `setFontSizePx` writes). -/
structure InplaceComputeT where
  result : ℚ
  probes : List Int
  mutatedTarget : Bool
  deriving DecidableEq

/-- `computeBestFontSize` of the clone variant (src/fontfit.js lines
164-194), with its observable trace.  Guard: if the container's client
width or height is `<= 0`, return `minPx` before creating the measurement
box or probing.  Otherwise binary-search `[max(1, floor(minPx)),
floor(maxPx)]` and return `best` exactly. -/
def computeBestFontSizeT_clone (fits : Int → Bool) (cw ch : Int)
    (minPx maxPx : ℚ) : CloneComputeT :=
  if cw ≤ 0 ∨ ch ≤ 0 then ⟨minPx, [], false⟩
  else
    ⟨((searchBest fits (max 1 ⌊minPx⌋) ⌊maxPx⌋ (max 1 ⌊minPx⌋) : Int) : ℚ),
     searchProbes fits (max 1 ⌊minPx⌋) ⌊maxPx⌋,
     true⟩

/-- `computeBestFontSize` of the in-place variant (src/fontfit.js lines
24-61), with its observable trace.  Same guard and loop, but the function
returns `best - 10` (line 60). -/
def computeBestFontSizeT_inplace (fits : Int → Bool) (cw ch : Int)
    (minPx maxPx : ℚ) : InplaceComputeT :=
  if cw ≤ 0 ∨ ch ≤ 0 then ⟨minPx, [], false⟩
  else
    ⟨((searchBest fits (max 1 ⌊minPx⌋) ⌊maxPx⌋ (max 1 ⌊minPx⌋) - 10 : Int) : ℚ),
     searchProbes fits (max 1 ⌊minPx⌋) ⌊maxPx⌋,
     true⟩

/-- Return value of the clone variant's `computeBestFontSize`. -/
def computeBestFontSize_clone (fits : Int → Bool) (cw ch : Int)
    (minPx maxPx : ℚ) : ℚ :=
  (computeBestFontSizeT_clone fits cw ch minPx maxPx).result

/-- Return value of the in-place variant's `computeBestFontSize`. -/
def computeBestFontSize_inplace (fits : Int → Bool) (cw ch : Int)
    (minPx maxPx : ℚ) : ℚ :=
  (computeBestFontSizeT_inplace fits cw ch minPx maxPx).result

/-- The clone variant's `computeBestFontSize` against a measurement oracle
whose reads may throw: the guard still short-circuits, and a thrown read
propagates out. -/
def computeBestFontSizeE_clone {E : Type} (fits : Int → Except E Bool)
    (cw ch : Int) (minPx maxPx : ℚ) : Except E ℚ :=
  if cw ≤ 0 ∨ ch ≤ 0 then Except.ok minPx
  else
    match searchBestE fits (max 1 ⌊minPx⌋) ⌊maxPx⌋ (max 1 ⌊minPx⌋) with
    | Except.error e => Except.error e
    | Except.ok best => Except.ok ((best : Int) : ℚ)

/-- The in-place variant's `computeBestFontSize` against a measurement
oracle whose reads may throw. -/
def computeBestFontSizeE_inplace {E : Type} (fits : Int → Except E Bool)
    (cw ch : Int) (minPx maxPx : ℚ) : Except E ℚ :=
  if cw ≤ 0 ∨ ch ≤ 0 then Except.ok minPx
  else
    match searchBestE fits (max 1 ⌊minPx⌋) ⌊maxPx⌋ (max 1 ⌊minPx⌋) with
    | Except.error e => Except.error e
    | Except.ok best => Except.ok ((best - 10 : Int) : ℚ)

/-- The element state the utility mutates: the applied `style.fontSize`
(in whole pixels, as written by `setFontSizePx`) and the
`dataset.fittedFontPx` marker (recorded as the numeric value whose string
the code writes). -/
structure TargetState where
  fontSizePx : Option Int
  fittedFontPx : Option ℚ
  deriving DecidableEq

/-- `setFontSizePx` (src/fontfit.js lines 20-22 and 129-131):
`el.style.fontSize = Math.max(1, Math.floor(px)) + 'px'`. -/
def setFontSizePx (t : TargetState) (px : ℚ) : TargetState :=
  { t with fontSizePx := some (max 1 ⌊px⌋) }

/-- A caller-supplied options object: each configuration key is either
present with a value or absent. -/
structure FitUserOptions where
  minPx : Option ℚ := none
  maxPx : Option ℚ := none
  observeMutations : Option Bool := none
  observeResize : Option Bool := none
  debounceMs : Option ℚ := none
  refitOnFontLoad : Option Bool := none
  deriving DecidableEq

/-- The merged options of the in-place variant (src/fontfit.js lines
66-72): `Object.assign` of the user object over the defaults
`{minPx: 8, maxPx: 512, observeMutations: true, observeResize: true,
debounceMs: 100}`.  This variant's defaults have no `refitOnFontLoad`
key and the variant never reads one. -/
structure FitOptions1 where
  minPx : ℚ
  maxPx : ℚ
  observeMutations : Bool
  observeResize : Bool
  debounceMs : ℚ
  deriving DecidableEq

/-- The merged options of the clone variant (src/fontfit.js lines
199-206): the same defaults plus `refitOnFontLoad: true`. -/
structure FitOptions2 where
  minPx : ℚ
  maxPx : ℚ
  observeMutations : Bool
  observeResize : Bool
  debounceMs : ℚ
  refitOnFontLoad : Bool
  deriving DecidableEq

/-- Options merge of the in-place variant: a key present on the user
object overrides the default, an absent key keeps the default. -/
def mergeOptions1 (u : FitUserOptions) : FitOptions1 :=
  { minPx := u.minPx.getD 8
  , maxPx := u.maxPx.getD 512
  , observeMutations := u.observeMutations.getD true
  , observeResize := u.observeResize.getD true
  , debounceMs := u.debounceMs.getD 100 }

/-- Options merge of the clone variant, including `refitOnFontLoad`. -/
def mergeOptions2 (u : FitUserOptions) : FitOptions2 :=
  { minPx := u.minPx.getD 8
  , maxPx := u.maxPx.getD 512
  , observeMutations := u.observeMutations.getD true
  , observeResize := u.observeResize.getD true
  , debounceMs := u.debounceMs.getD 100
  , refitOnFontLoad := u.refitOnFontLoad.getD true }

/-- Host-environment capabilities consulted at construction time:
`'ResizeObserver' in window`, `'MutationObserver' in window`, and
`document.fonts && document.fonts.ready`. -/
structure Env where
  hasResizeObserver : Bool
  hasMutationObserver : Bool
  hasFontsReady : Bool
  deriving DecidableEq

/-- Controller state of one `fitFontToContainer` session: the reentrancy
flag, which subscriptions are live (ResizeObserver, MutationObserver,
window-resize fallback listener, the one-shot `document.fonts.ready`
hook), whether a debounced invocation is pending (a `setTimeout` timer is
armed), and whether the construction-time `requestAnimationFrame` initial
refit is still pending. -/
structure Session where
  busy : Bool
  roActive : Bool
  moActive : Bool
  winListenerActive : Bool
  fontLoadHooked : Bool
  debouncePending : Bool
  rafPending : Bool
  deriving DecidableEq

/-- Subscriptions made by the in-place variant's `fitFontToContainer`
(src/fontfit.js lines 89-105): a ResizeObserver when requested and
available, otherwise the window-resize fallback; a MutationObserver when
requested and available; an initial refit scheduled via
`requestAnimationFrame`.  This variant has no font-load hook. -/
def mkSession1 (opts : FitOptions1) (env : Env) : Session :=
  { busy := false
  , roActive := opts.observeResize && env.hasResizeObserver
  , winListenerActive := !(opts.observeResize && env.hasResizeObserver)
  , moActive := opts.observeMutations && env.hasMutationObserver
  , fontLoadHooked := false
  , debouncePending := false
  , rafPending := true }

/-- Subscriptions made by the clone variant's `fitFontToContainer`
(src/fontfit.js lines 223-243), including the one-shot
`document.fonts.ready.then(debounced)` hook when `refitOnFontLoad` is set
and the fonts API exists. -/
def mkSession2 (opts : FitOptions2) (env : Env) : Session :=
  { busy := false
  , roActive := opts.observeResize && env.hasResizeObserver
  , winListenerActive := !(opts.observeResize && env.hasResizeObserver)
  , moActive := opts.observeMutations && env.hasMutationObserver
  , fontLoadHooked := opts.refitOnFontLoad && env.hasFontsReady
  , debouncePending := false
  , rafPending := true }

/-- `refit()` (src/fontfit.js lines 77-87 and 211-221) on a non-throwing
measurement, given the value `computeBestFontSize` returns for the current
geometry: if the busy flag is set, return immediately with no effect;
otherwise set busy, apply the computed size via `setFontSizePx`, record it
in `dataset.fittedFontPx`, and clear busy (the `finally`). -/
def refitPure (compute : ℚ) (s : Session) (t : TargetState) :
    Session × TargetState :=
  if s.busy then (s, t)
  else
    ({ s with busy := false },
     { setFontSizePx t compute with fittedFontPx := some compute })

/-- Outcome of one `refit()` call when the measurement may throw: the busy
flag after the call, the value applied to the target (passed to both
`setFontSizePx` and the dataset marker) if any, and the exception that
propagated out if any. -/
structure RefitOutcome (E : Type) where
  busyAfter : Bool
  applied : Option ℚ
  thrown : Option E
  deriving DecidableEq

/-- `refit()` with a possibly-throwing measurement, abstracted over the
outcome of its `computeBestFontSize` call.  The busy guard returns before
any measurement; the `try`/`finally` clears the busy flag whether the
computation returns or throws, and a thrown exception propagates out. -/
def refitE {E : Type} (busyBefore : Bool) (computeRes : Except E ℚ) :
    RefitOutcome E :=
  if busyBefore then ⟨true, none, none⟩
  else
    match computeRes with
    | Except.error e => ⟨false, none, some e⟩
    | Except.ok best => ⟨false, some best, none⟩

/-- Result of calling `fitFontToContainer`: whether it threw, the session
it created (none when it threw), and the target's element state after the
call (construction itself only schedules work; the initial refit runs
later, on the rAF tick). -/
structure ConstructOutcome where
  threw : Bool
  session : Option Session
  target : TargetState
  deriving DecidableEq

/-- `fitFontToContainer` of the in-place variant (src/fontfit.js lines
63-115): throws when target or container is missing
(`if (!targetEl || !containerEl) throw ...`), before creating any state;
otherwise merges options and wires the subscriptions. -/
def fitFontToContainer_inplace (targetPresent containerPresent : Bool)
    (u : FitUserOptions) (env : Env) (t : TargetState) : ConstructOutcome :=
  if targetPresent = false ∨ containerPresent = false then
    ⟨true, none, t⟩
  else
    ⟨false, some (mkSession1 (mergeOptions1 u) env), t⟩

/-- `fitFontToContainer` of the clone variant (src/fontfit.js lines
196-253): same precondition check, clone-variant options and wiring. -/
def fitFontToContainer_clone (targetPresent containerPresent : Bool)
    (u : FitUserOptions) (env : Env) (t : TargetState) : ConstructOutcome :=
  if targetPresent = false ∨ containerPresent = false then
    ⟨true, none, t⟩
  else
    ⟨false, some (mkSession2 (mergeOptions2 u) env), t⟩

/-- The asynchronous events a live session can observe: the wired trigger
signals, the debounce timer elapsing, the rAF tick, and the two public
operations. -/
inductive Event where
  | containerResized
  | windowResized
  | contentMutated
  | fontsReady
  | timerFired
  | rafFired
  | callRefit
  | callDisconnect
  deriving DecidableEq

/-- Single-threaded event semantics of a session, parametrized by the
value `computeBestFontSize` returns for the current geometry.
Trigger signals run `debounced()`, which re-arms the one debounce timer
(last trigger wins) when the corresponding subscription is live; the
timer elapsing, the rAF tick, and `refit()` run the refit body;
`disconnect()` (src/fontfit.js lines 109-114 and 247-251) disconnects the
two observers and removes the window listener — it does not clear the
debounce timer, nor cancel the rAF, nor unhook the font-load promise. -/
def stepWith (compute : ℚ) : Event → Session × TargetState → Session × TargetState
  | Event.containerResized, (s, t) =>
      if s.roActive then ({ s with debouncePending := true }, t) else (s, t)
  | Event.windowResized, (s, t) =>
      if s.winListenerActive then ({ s with debouncePending := true }, t) else (s, t)
  | Event.contentMutated, (s, t) =>
      if s.moActive then ({ s with debouncePending := true }, t) else (s, t)
  | Event.fontsReady, (s, t) =>
      if s.fontLoadHooked then
        ({ s with debouncePending := true, fontLoadHooked := false }, t)
      else (s, t)
  | Event.timerFired, (s, t) =>
      if s.debouncePending then refitPure compute { s with debouncePending := false } t
      else (s, t)
  | Event.rafFired, (s, t) =>
      if s.rafPending then refitPure compute { s with rafPending := false } t
      else (s, t)
  | Event.callRefit, (s, t) => refitPure compute s t
  | Event.callDisconnect, (s, t) =>
      ({ s with roActive := false, moActive := false, winListenerActive := false }, t)

/-- Event semantics of an in-place-variant session with a fixed geometry
and oracle. -/
def step_inplace (fits : Int → Bool) (cw ch : Int) (minPx maxPx : ℚ) :
    Event → Session × TargetState → Session × TargetState :=
  stepWith (computeBestFontSize_inplace fits cw ch minPx maxPx)

/-- Event semantics of a clone-variant session with a fixed geometry and
oracle. -/
def step_clone (fits : Int → Bool) (cw ch : Int) (minPx maxPx : ℚ) :
    Event → Session × TargetState → Session × TargetState :=
  stepWith (computeBestFontSize_clone fits cw ch minPx maxPx)

/-- Run a sequence of events against a session. -/
def runEvents (compute : ℚ) (es : List Event) (st : Session × TargetState) :
    Session × TargetState :=
  es.foldl (fun st e => stepWith compute e st) st

/-- The midpoint probed by the loop stays inside `[lo, hi]`. -/
theorem mid2_bounds (lo hi : Int) (h : lo ≤ hi) :
    lo ≤ mid2 lo hi ∧ mid2 lo hi ≤ hi := by
  unfold mid2
  rw [Int.fdiv_eq_ediv _ (by norm_num)]
  omega

/-- When the loop condition fails the loop returns `best` at any fuel. -/
theorem searchGo_exit (fits : Int → Bool) (fuel : Nat) (lo hi best : Int)
    (h : hi < lo) : searchGo fits fuel lo hi best = best := by
  cases fuel with
  | zero => rfl
  | succ n => simp [searchGo, not_le.mpr h]

/-- Any fuel at least the loop measure `hi + 1 - lo` computes the same
result: the fuel passed by `searchBest` is sufficient, i.e. the source
loop terminates and `searchGo` computes its result. -/
theorem searchGo_fuel_irrel (fits : Int → Bool) :
    ∀ (fuel fuel' : Nat) (lo hi best : Int),
      (hi + 1 - lo).toNat ≤ fuel → (hi + 1 - lo).toNat ≤ fuel' →
      searchGo fits fuel lo hi best = searchGo fits fuel' lo hi best := by
  intro fuel
  induction fuel with
  | zero =>
    intro fuel' lo hi best hf hf'
    have hexit : hi < lo := by omega
    rw [searchGo_exit fits 0 lo hi best hexit, searchGo_exit fits fuel' lo hi best hexit]
  | succ n ih =>
    intro fuel' lo hi best hf hf'
    cases fuel' with
    | zero =>
      have hexit : hi < lo := by omega
      rw [searchGo_exit fits (n + 1) lo hi best hexit,
        searchGo_exit fits 0 lo hi best hexit]
    | succ k =>
      by_cases hlh : lo ≤ hi
      · have hmid := mid2_bounds lo hi hlh
        simp only [searchGo, if_pos hlh]
        by_cases hfit : fits (mid2 lo hi) = true
        · rw [if_pos hfit, if_pos hfit]
          exact ih k (mid2 lo hi + 1) hi (mid2 lo hi) (by omega) (by omega)
        · rw [if_neg hfit, if_neg hfit]
          exact ih k lo (mid2 lo hi - 1) best (by omega) (by omega)
      · simp only [searchGo, if_neg hlh]

/-- `searchBest` satisfies the recurrence of the source loop. -/
theorem searchBest_eq (fits : Int → Bool) (lo hi best : Int) :
    searchBest fits lo hi best =
      if lo ≤ hi then
        if fits (mid2 lo hi) then searchBest fits (mid2 lo hi + 1) hi (mid2 lo hi)
        else searchBest fits lo (mid2 lo hi - 1) best
      else best := by
  by_cases hlh : lo ≤ hi
  · have hmid := mid2_bounds lo hi hlh
    have hm : (hi + 1 - lo).toNat = ((hi + 1 - lo).toNat - 1) + 1 := by omega
    rw [if_pos hlh]
    unfold searchBest
    rw [hm]
    simp only [searchGo, if_pos hlh]
    by_cases hfit : fits (mid2 lo hi) = true
    · rw [if_pos hfit, if_pos hfit]
      exact searchGo_fuel_irrel fits _ _ _ _ _ (by omega) (by omega)
    · rw [if_neg hfit, if_neg hfit]
      exact searchGo_fuel_irrel fits _ _ _ _ _ (by omega) (by omega)
  · rw [if_neg hlh]
    exact searchGo_exit fits _ lo hi best (by omega)

/-- Lower bound on the loop result: it never drops below `best` and `lo`. -/
theorem searchGo_ge (fits : Int → Bool) :
    ∀ (fuel : Nat) (lo hi best : Int),
      min best lo ≤ searchGo fits fuel lo hi best := by
  intro fuel
  induction fuel with
  | zero => intro lo hi best; simp [searchGo]
  | succ n ih =>
    intro lo hi best
    by_cases hlh : lo ≤ hi
    · have hmid := mid2_bounds lo hi hlh
      simp only [searchGo, if_pos hlh]
      by_cases hfit : fits (mid2 lo hi) = true
      · rw [if_pos hfit]
        have := ih (mid2 lo hi + 1) hi (mid2 lo hi)
        omega
      · rw [if_neg hfit]
        exact ih lo (mid2 lo hi - 1) best
    · simp only [searchGo, if_neg hlh]
      omega

/-- Upper bound on the loop result: it never exceeds `best` and `hi`. -/
theorem searchGo_le (fits : Int → Bool) :
    ∀ (fuel : Nat) (lo hi best : Int),
      searchGo fits fuel lo hi best ≤ max best hi := by
  intro fuel
  induction fuel with
  | zero => intro lo hi best; simp [searchGo]
  | succ n ih =>
    intro lo hi best
    by_cases hlh : lo ≤ hi
    · have hmid := mid2_bounds lo hi hlh
      simp only [searchGo, if_pos hlh]
      by_cases hfit : fits (mid2 lo hi) = true
      · rw [if_pos hfit]
        have := ih (mid2 lo hi + 1) hi (mid2 lo hi)
        omega
      · rw [if_neg hfit]
        have := ih lo (mid2 lo hi - 1) best
        omega
    · simp only [searchGo, if_neg hlh]
      omega

/-- Loop invariant preserved by the binary search, for a monotonically
non-increasing oracle.  `lo0`/`hi0` are the initial bounds.  The
hypotheses are the invariant on entry to an iteration; the conclusion is
the postcondition of the whole loop: the result stays in range, it fits
(or nothing in range fits and the result is `lo0`), and it dominates every
fitting size in range. -/
theorem searchGo_spec (fits : Int → Bool)
    (mono : ∀ x y : Int, y < x → fits x = true → fits y = true)
    (lo0 hi0 : Int) :
    ∀ (fuel : Nat) (lo hi best : Int),
      (hi + 1 - lo).toNat ≤ fuel →
      lo0 ≤ lo → hi ≤ hi0 → lo0 ≤ best → best ≤ hi0 →
      (fits best = true ∨
        (best = lo0 ∧ ∀ s : Int, lo0 ≤ s → s < lo → fits s = false)) →
      (∀ s : Int, hi < s → s ≤ hi0 → fits s = false) →
      (∀ s : Int, lo0 ≤ s → s < lo → fits s = true → s ≤ best) →
      lo0 ≤ searchGo fits fuel lo hi best ∧
      searchGo fits fuel lo hi best ≤ hi0 ∧
      (fits (searchGo fits fuel lo hi best) = true ∨
        (searchGo fits fuel lo hi best = lo0 ∧
          ∀ s : Int, lo0 ≤ s → s ≤ hi0 → fits s = false)) ∧
      (∀ s : Int, lo0 ≤ s → s ≤ hi0 → fits s = true →
        s ≤ searchGo fits fuel lo hi best) := by
  intro fuel
  induction fuel with
  | zero =>
    intro lo hi best hfuel h1 h2 h3 h4 hb0 hhi he
    have hexit : hi < lo := by omega
    rw [searchGo_exit fits 0 lo hi best hexit]
    refine ⟨h3, h4, ?_, ?_⟩
    · rcases hb0 with hb | ⟨hb, hnone⟩
      · exact Or.inl hb
      · refine Or.inr ⟨hb, fun s hs1 hs2 => ?_⟩
        by_cases hslo : s < lo
        · exact hnone s hs1 hslo
        · exact hhi s (by omega) hs2
    · intro s hs1 hs2 hsfit
      by_cases hslo : s < lo
      · exact he s hs1 hslo hsfit
      · exact absurd (hhi s (by omega) hs2) (by simp [hsfit])
  | succ n ih =>
    intro lo hi best hfuel h1 h2 h3 h4 hb0 hhi he
    by_cases hlh : lo ≤ hi
    · have hmid := mid2_bounds lo hi hlh
      simp only [searchGo, if_pos hlh]
      by_cases hfit : fits (mid2 lo hi) = true
      · rw [if_pos hfit]
        refine ih (mid2 lo hi + 1) hi (mid2 lo hi) (by omega)
          (by omega) h2 (by omega) (by omega) (Or.inl hfit) hhi ?_
        intro s hs1 hs2 _
        omega
      · rw [if_neg hfit]
        refine ih lo (mid2 lo hi - 1) best (by omega) h1 (by omega) h3 h4 hb0 ?_ he
        intro s hs1 hs2
        by_cases hshi : hi < s
        · exact hhi s hshi hs2
        · by_cases hsmid : s = mid2 lo hi
          · subst hsmid
            exact Bool.not_eq_true _ ▸ (by simpa using hfit)
          · by_contra hcon
            have hstrue : fits s = true := by
              cases hfs : fits s with
              | false => exact absurd hfs hcon
              | true => rfl
            exact hfit (mono s (mid2 lo hi) (by omega) hstrue)
    · have hexit : hi < lo := by omega
      rw [searchGo_exit fits (n + 1) lo hi best hexit]
      refine ⟨h3, h4, ?_, ?_⟩
      · rcases hb0 with hb | ⟨hb, hnone⟩
        · exact Or.inl hb
        · refine Or.inr ⟨hb, fun s hs1 hs2 => ?_⟩
          by_cases hslo : s < lo
          · exact hnone s hs1 hslo
          · exact hhi s (by omega) hs2
      · intro s hs1 hs2 hsfit
        by_cases hslo : s < lo
        · exact he s hs1 hslo hsfit
        · exact absurd (hhi s (by omega) hs2) (by simp [hsfit])

/-- Bounds of the clone variant's result under valid integer options: the
search starts at `max 1 minPx = minPx` and never leaves `[minPx, maxPx]`. -/
theorem computeBestFontSize_clone_bounds (fits : Int → Bool) (cw ch : Int)
    (m M : Int) (hm : 1 ≤ m) (hmM : m ≤ M) (hcw : 0 < cw) (hch : 0 < ch) :
    (m : ℚ) ≤ computeBestFontSize_clone fits cw ch (m : ℚ) (M : ℚ) ∧
      computeBestFontSize_clone fits cw ch (m : ℚ) (M : ℚ) ≤ (M : ℚ) := by
  unfold computeBestFontSize_clone computeBestFontSizeT_clone
  rw [if_neg (by omega)]
  simp only [Int.floor_intCast]
  have hlo : max 1 m = m := by omega
  rw [hlo]
  have hge := searchGo_ge fits (M + 1 - m).toNat m M m
  have hle := searchGo_le fits (M + 1 - m).toNat m M m
  unfold searchBest
  constructor
  · exact_mod_cast (by omega : m ≤ searchGo fits (M + 1 - m).toNat m M m)
  · exact_mod_cast (by omega : searchGo fits (M + 1 - m).toNat m M m ≤ M)

/-- Identical bounds for the loop of the in-place variant, before the
final `- 10` offset is applied. -/
theorem computeBestFontSize_inplace_eq (fits : Int → Bool) (cw ch : Int)
    (m M : Int) (hcw : 0 < cw) (hch : 0 < ch) :
    computeBestFontSize_inplace fits cw ch (m : ℚ) (M : ℚ) =
      computeBestFontSize_clone fits cw ch (m : ℚ) (M : ℚ) - 10 := by
  unfold computeBestFontSize_inplace computeBestFontSizeT_inplace
    computeBestFontSize_clone computeBestFontSizeT_clone
  rw [if_neg (by omega), if_neg (by omega)]
  push_cast
  ring

/-- Claim C1 (amended): with valid integer options `1 ≤ minSize ≤ maxSize`
and a container of positive client width and height, the clone variant's
`computeBestFontSize` returns `s` with `minSize ≤ s ≤ maxSize`; the
in-place variant returns the search result minus 10, so it only satisfies
`minSize - 10 ≤ s ≤ maxSize - 10` and can fall below `minSize` (see the
counterexample). -/
theorem spec_C1_bounds (fits fits' : Int → Bool) (cw ch : Int)
    (m M : Int) (hm : 1 ≤ m) (hmM : m ≤ M) (hcw : 0 < cw) (hch : 0 < ch) :
    ((m : ℚ) ≤ computeBestFontSize_clone fits cw ch (m : ℚ) (M : ℚ) ∧
      computeBestFontSize_clone fits cw ch (m : ℚ) (M : ℚ) ≤ (M : ℚ)) ∧
    ((m : ℚ) - 10 ≤ computeBestFontSize_inplace fits' cw ch (m : ℚ) (M : ℚ) ∧
      computeBestFontSize_inplace fits' cw ch (m : ℚ) (M : ℚ) ≤ (M : ℚ) - 10) := by
  have hc := computeBestFontSize_clone_bounds fits cw ch m M hm hmM hcw hch
  have hc' := computeBestFontSize_clone_bounds fits' cw ch m M hm hmM hcw hch
  have heq := computeBestFontSize_inplace_eq fits' cw ch m M hcw hch
  refine ⟨hc, ?_, ?_⟩
  · rw [heq]; linarith [hc'.1]
  · rw [heq]; linarith [hc'.2]

/-- Witness for claim C1's amended bounds at a concrete input: an oracle
under which content of height equal to the probed size must fit in a
height-20 box, inside a 100 by 50 container, with options 8 and 32. -/
theorem spec_C1_bounds_witness :
    ((1 : Int) ≤ 8 ∧ (8 : Int) ≤ 32 ∧ (0 : Int) < 100 ∧ (0 : Int) < 50) ∧
    ((8 : ℚ) ≤ computeBestFontSize_clone (fun s => cloneFits s 20) 100 50 (8 : ℚ) (32 : ℚ) ∧
      computeBestFontSize_clone (fun s => cloneFits s 20) 100 50 (8 : ℚ) (32 : ℚ) ≤ (32 : ℚ)) ∧
    ((8 : ℚ) - 10 ≤ computeBestFontSize_inplace (fun s => cloneFits s 20) 100 50 (8 : ℚ) (32 : ℚ) ∧
      computeBestFontSize_inplace (fun s => cloneFits s 20) 100 50 (8 : ℚ) (32 : ℚ) ≤ (32 : ℚ) - 10) :=
  ⟨⟨by decide, by decide, by decide, by decide⟩,
    (spec_C1_bounds (fun s => cloneFits s 20) (fun s => cloneFits s 20) 100 50 8 32
      (by decide) (by decide) (by decide) (by decide)).1,
    (spec_C1_bounds (fun s => cloneFits s 20) (fun s => cloneFits s 20) 100 50 8 32
      (by decide) (by decide) (by decide) (by decide)).2⟩

/-- Counterexample to claim C1 as stated: on a 50 by 50 container with
valid options `minSize = maxSize = 8` and an oracle under which nothing
fits, the in-place variant returns `8 - 10 = -2 < minSize`. -/
theorem spec_C1_counterexample :
    computeBestFontSize_inplace (fun _ => false) 50 50 (8 : ℚ) (8 : ℚ) = -2 ∧
    ¬((8 : ℚ) ≤ computeBestFontSize_inplace (fun _ => false) 50 50 (8 : ℚ) (8 : ℚ)) := by
  decide

/-- Claim C2: assuming the fit oracle is monotonically non-increasing in
size, the binary-search loop — `lo = max(1, floor(minSize))`,
`hi = floor(maxSize)`, `best = lo`; while `lo ≤ hi` take
`mid = floor((lo+hi)/2)`, on `fits(mid)` set `best = mid; lo = mid+1`,
otherwise `hi = mid-1` — terminates (`searchBest` is a total function
satisfying the loop recurrence `searchBest_eq`) and its final `best`
equals the largest size in `[max(1, floor(minSize)), floor(maxSize)]`
that fits, or the initial `lo` if no size in that range fits. -/
theorem spec_C2_search_loop (fits : Int → Bool) (minPx maxPx : ℚ)
    (mono : ∀ x y : Int, y < x → fits x = true → fits y = true) :
    ((∃ s : Int, max 1 ⌊minPx⌋ ≤ s ∧ s ≤ ⌊maxPx⌋ ∧ fits s = true) →
      (max 1 ⌊minPx⌋ ≤ searchBest fits (max 1 ⌊minPx⌋) ⌊maxPx⌋ (max 1 ⌊minPx⌋) ∧
        searchBest fits (max 1 ⌊minPx⌋) ⌊maxPx⌋ (max 1 ⌊minPx⌋) ≤ ⌊maxPx⌋ ∧
        fits (searchBest fits (max 1 ⌊minPx⌋) ⌊maxPx⌋ (max 1 ⌊minPx⌋)) = true ∧
        ∀ s : Int, max 1 ⌊minPx⌋ ≤ s → s ≤ ⌊maxPx⌋ → fits s = true →
          s ≤ searchBest fits (max 1 ⌊minPx⌋) ⌊maxPx⌋ (max 1 ⌊minPx⌋))) ∧
    ((∀ s : Int, max 1 ⌊minPx⌋ ≤ s → s ≤ ⌊maxPx⌋ → fits s = false) →
      searchBest fits (max 1 ⌊minPx⌋) ⌊maxPx⌋ (max 1 ⌊minPx⌋) = max 1 ⌊minPx⌋) := by
  by_cases hrange : max 1 ⌊minPx⌋ ≤ ⌊maxPx⌋
  · have hspec := searchGo_spec fits mono (max 1 ⌊minPx⌋) ⌊maxPx⌋
      (⌊maxPx⌋ + 1 - max 1 ⌊minPx⌋).toNat (max 1 ⌊minPx⌋) ⌊maxPx⌋ (max 1 ⌊minPx⌋)
      (le_refl _) (le_refl _) (le_refl _) (le_refl _) hrange
      (Or.inr ⟨rfl, fun s hs1 hs2 => absurd hs1 (by omega)⟩)
      (fun s hs1 hs2 => absurd hs1 (by omega))
      (fun s hs1 hs2 _ => by omega)
    constructor
    · rintro ⟨s, hs1, hs2, hsfit⟩
      rcases hspec.2.2.1 with hfitR | ⟨_, hnone⟩
      · exact ⟨hspec.1, hspec.2.1, hfitR, hspec.2.2.2⟩
      · exact absurd (hnone s hs1 hs2) (by simp [hsfit])
    · intro hnone
      rcases hspec.2.2.1 with hfitR | ⟨hR, _⟩
      · exact absurd (hnone _ hspec.1 hspec.2.1) (by simp [hfitR])
      · exact hR
  · constructor
    · rintro ⟨s, hs1, hs2, _⟩
      exact absurd hs1 (by omega)
    · intro _
      exact searchGo_exit fits _ _ _ _ (by omega)

/-- Witness for claim C2 at a concrete input: the oracle accepting sizes
up to 20 is monotone, something in `[8, 100]` fits, and the theorem
yields the loop postcondition there. -/
theorem spec_C2_search_loop_witness :
    (∀ x y : Int, y < x → (fun s => cloneFits s 20) x = true →
      (fun s => cloneFits s 20) y = true) ∧
    (∃ s : Int, max 1 ⌊(8 : ℚ)⌋ ≤ s ∧ s ≤ ⌊(100 : ℚ)⌋ ∧ (fun s => cloneFits s 20) s = true) ∧
    (max 1 ⌊(8 : ℚ)⌋ ≤
        searchBest (fun s => cloneFits s 20) (max 1 ⌊(8 : ℚ)⌋) ⌊(100 : ℚ)⌋ (max 1 ⌊(8 : ℚ)⌋) ∧
      searchBest (fun s => cloneFits s 20) (max 1 ⌊(8 : ℚ)⌋) ⌊(100 : ℚ)⌋ (max 1 ⌊(8 : ℚ)⌋) ≤ ⌊(100 : ℚ)⌋ ∧
      (fun s => cloneFits s 20)
          (searchBest (fun s => cloneFits s 20) (max 1 ⌊(8 : ℚ)⌋) ⌊(100 : ℚ)⌋ (max 1 ⌊(8 : ℚ)⌋)) = true ∧
      ∀ s : Int, max 1 ⌊(8 : ℚ)⌋ ≤ s → s ≤ ⌊(100 : ℚ)⌋ → (fun s => cloneFits s 20) s = true →
        s ≤ searchBest (fun s => cloneFits s 20) (max 1 ⌊(8 : ℚ)⌋) ⌊(100 : ℚ)⌋ (max 1 ⌊(8 : ℚ)⌋)) :=
  ⟨fun x y hxy hx => by
      simp only [cloneFits, decide_eq_true_eq] at hx ⊢; omega,
    ⟨20, by decide, by decide, by decide⟩,
    (spec_C2_search_loop (fun s => cloneFits s 20) 8 100
      (fun x y hxy hx => by
        simp only [cloneFits, decide_eq_true_eq] at hx ⊢; omega)).1
      ⟨20, by decide, by decide, by decide⟩⟩

/-- Claim C3: in either variant, if the container's client width or
client height is `≤ 0`, `computeBestFontSize` returns exactly the
configured minimum size, probes no size (so the fit oracle is never
consulted), performs no style write on the target, and creates no
measurement clone. -/
theorem spec_C3_zero_area_guard (fits fits' : Int → Bool) (cw ch : Int)
    (minPx maxPx : ℚ) (h : cw ≤ 0 ∨ ch ≤ 0) :
    computeBestFontSizeT_clone fits cw ch minPx maxPx =
      ⟨minPx, [], false⟩ ∧
    computeBestFontSizeT_inplace fits' cw ch minPx maxPx =
      ⟨minPx, [], false⟩ := by
  unfold computeBestFontSizeT_clone computeBestFontSizeT_inplace
  rw [if_pos h, if_pos h]
  exact ⟨rfl, rfl⟩

/-- Witness for claim C3 on a container of client width 0 and height 10. -/
theorem spec_C3_zero_area_guard_witness :
    ((0 : Int) ≤ 0 ∨ (10 : Int) ≤ 0) ∧
    computeBestFontSizeT_clone (fun s => cloneFits s 20) 0 10 (8 : ℚ) (512 : ℚ) =
      ⟨8, [], false⟩ ∧
    computeBestFontSizeT_inplace (fun s => cloneFits s 20) 0 10 (8 : ℚ) (512 : ℚ) =
      ⟨8, [], false⟩ :=
  ⟨Or.inl (by decide),
    (spec_C3_zero_area_guard (fun s => cloneFits s 20) (fun s => cloneFits s 20)
      0 10 (8 : ℚ) (512 : ℚ) (Or.inl (by decide))).1,
    (spec_C3_zero_area_guard (fun s => cloneFits s 20) (fun s => cloneFits s 20)
      0 10 (8 : ℚ) (512 : ℚ) (Or.inl (by decide))).2⟩

/-- The clone variant's result is an integer at least 1 whenever the
configured minimum is an integer at least 1: the guard path returns that
minimum and the search path returns a loop value bounded below by
`max 1 minPx`. -/
theorem computeBestFontSize_clone_int (fits : Int → Bool) (cw ch : Int)
    (m : Int) (maxPx : ℚ) (hm : 1 ≤ m) :
    ∃ n : Int, 1 ≤ n ∧
      computeBestFontSize_clone fits cw ch (m : ℚ) maxPx = (n : ℚ) := by
  unfold computeBestFontSize_clone computeBestFontSizeT_clone
  by_cases h : cw ≤ 0 ∨ ch ≤ 0
  · exact ⟨m, hm, by rw [if_pos h]⟩
  · rw [if_neg h]
    refine ⟨searchBest fits (max 1 ⌊(m : ℚ)⌋) ⌊maxPx⌋ (max 1 ⌊(m : ℚ)⌋), ?_, rfl⟩
    have := searchGo_ge fits (⌊maxPx⌋ + 1 - max 1 ⌊(m : ℚ)⌋).toNat
      (max 1 ⌊(m : ℚ)⌋) ⌊maxPx⌋ (max 1 ⌊(m : ℚ)⌋)
    unfold searchBest
    omega

/-- Claim C4 (amended): after a successful `refit()`, the marker
`dataset.fittedFontPx` records the computed value and the style receives
`max(1, floor(computed))`; in the clone variant with an integer
`minSize ≥ 1` these coincide, while the in-place variant's `- 10` offset
can push the recorded value below 1 so that the two differ (see the
counterexample). -/
theorem spec_C4_marker (compute : ℚ) (fits : Int → Bool) (cw ch : Int)
    (m : Int) (maxPx : ℚ) (s : Session) (t : TargetState)
    (hbusy : s.busy = false) (hm : 1 ≤ m) :
    ((refitPure compute s t).2.fontSizePx = some (max 1 ⌊compute⌋) ∧
      (refitPure compute s t).2.fittedFontPx = some compute) ∧
    (∃ n : Int, 1 ≤ n ∧
      (refitPure (computeBestFontSize_clone fits cw ch (m : ℚ) maxPx) s t).2.fontSizePx =
        some n ∧
      (refitPure (computeBestFontSize_clone fits cw ch (m : ℚ) maxPx) s t).2.fittedFontPx =
        some ((n : Int) : ℚ)) := by
  constructor
  · simp [refitPure, hbusy, setFontSizePx]
  · obtain ⟨n, hn1, hn⟩ := computeBestFontSize_clone_int fits cw ch m maxPx hm
    refine ⟨n, hn1, ?_, ?_⟩
    · simp [refitPure, hbusy, setFontSizePx, hn]
      omega
    · simp [refitPure, hbusy, setFontSizePx, hn]

/-- Witness for claim C4's amended statement at a concrete successful
refit in the clone variant. -/
theorem spec_C4_marker_witness :
    ((⟨false, true, true, false, false, false, true⟩ : Session).busy = false ∧ (1 : Int) ≤ 8) ∧
    ((refitPure (5 : ℚ) ⟨false, true, true, false, false, false, true⟩ ⟨none, none⟩).2.fontSizePx =
        some (max 1 ⌊(5 : ℚ)⌋) ∧
      (refitPure (5 : ℚ) ⟨false, true, true, false, false, false, true⟩ ⟨none, none⟩).2.fittedFontPx =
        some (5 : ℚ)) ∧
    (∃ n : Int, 1 ≤ n ∧
      (refitPure (computeBestFontSize_clone (fun s => cloneFits s 20) 100 50 ((8 : Int) : ℚ) 32)
          ⟨false, true, true, false, false, false, true⟩ ⟨none, none⟩).2.fontSizePx = some n ∧
      (refitPure (computeBestFontSize_clone (fun s => cloneFits s 20) 100 50 ((8 : Int) : ℚ) 32)
          ⟨false, true, true, false, false, false, true⟩ ⟨none, none⟩).2.fittedFontPx =
        some ((n : Int) : ℚ)) :=
  ⟨⟨rfl, by decide⟩,
    (spec_C4_marker 5 (fun s => cloneFits s 20) 100 50 8 32
      ⟨false, true, true, false, false, false, true⟩ ⟨none, none⟩ rfl (by decide)).1,
    (spec_C4_marker 5 (fun s => cloneFits s 20) 100 50 8 32
      ⟨false, true, true, false, false, false, true⟩ ⟨none, none⟩ rfl (by decide)).2⟩

/-- Counterexample to claim C4 as stated: in the in-place variant on a
50 by 50 container with `minSize = maxSize = 8` and nothing fitting, the
refit records `-2` in `dataset.fittedFontPx` but applies
`max(1, floor(-2)) = 1` pixel to `style.fontSize`: the two numeric values
differ. -/
theorem spec_C4_counterexample :
    (refitPure (computeBestFontSize_inplace (fun _ => false) 50 50 (8 : ℚ) (8 : ℚ))
        ⟨false, true, true, false, false, false, true⟩ ⟨none, none⟩).2.fontSizePx = some 1 ∧
    (refitPure (computeBestFontSize_inplace (fun _ => false) 50 50 (8 : ℚ) (8 : ℚ))
        ⟨false, true, true, false, false, false, true⟩ ⟨none, none⟩).2.fittedFontPx =
      some (-2 : ℚ) ∧
    ((1 : ℚ) ≠ (-2 : ℚ)) := by
  decide

/-- Claim C5: in both variants the caller's options object is merged over
the defaults (`minSize = 8`, `maxSize = 512`, both observers enabled,
`debounceMs = 100`, and — in the clone variant only — `refitOnFontLoad =
true`): a supplied value for any option of the configuration surface
overrides its default, an omitted option takes its default. -/
theorem spec_C5_options_merge (u : FitUserOptions) (q : ℚ) (b : Bool) :
    (u.minPx = some q → (mergeOptions1 u).minPx = q) ∧
    (u.minPx = none → (mergeOptions1 u).minPx = 8) ∧
    (u.maxPx = some q → (mergeOptions1 u).maxPx = q) ∧
    (u.maxPx = none → (mergeOptions1 u).maxPx = 512) ∧
    (u.observeResize = some b → (mergeOptions1 u).observeResize = b) ∧
    (u.observeResize = none → (mergeOptions1 u).observeResize = true) ∧
    (u.observeMutations = some b → (mergeOptions1 u).observeMutations = b) ∧
    (u.observeMutations = none → (mergeOptions1 u).observeMutations = true) ∧
    (u.debounceMs = some q → (mergeOptions1 u).debounceMs = q) ∧
    (u.debounceMs = none → (mergeOptions1 u).debounceMs = 100) ∧
    (u.minPx = some q → (mergeOptions2 u).minPx = q) ∧
    (u.minPx = none → (mergeOptions2 u).minPx = 8) ∧
    (u.maxPx = some q → (mergeOptions2 u).maxPx = q) ∧
    (u.maxPx = none → (mergeOptions2 u).maxPx = 512) ∧
    (u.observeResize = some b → (mergeOptions2 u).observeResize = b) ∧
    (u.observeResize = none → (mergeOptions2 u).observeResize = true) ∧
    (u.observeMutations = some b → (mergeOptions2 u).observeMutations = b) ∧
    (u.observeMutations = none → (mergeOptions2 u).observeMutations = true) ∧
    (u.debounceMs = some q → (mergeOptions2 u).debounceMs = q) ∧
    (u.debounceMs = none → (mergeOptions2 u).debounceMs = 100) ∧
    (u.refitOnFontLoad = some b → (mergeOptions2 u).refitOnFontLoad = b) ∧
    (u.refitOnFontLoad = none → (mergeOptions2 u).refitOnFontLoad = true) := by
  refine ⟨?_, ?_, ?_, ?_, ?_, ?_, ?_, ?_, ?_, ?_, ?_, ?_, ?_, ?_, ?_, ?_, ?_, ?_, ?_, ?_, ?_, ?_⟩ <;>
    intro h <;> simp [mergeOptions1, mergeOptions2, h]

/-- Witness for claim C5 on a concrete partial options object supplying
`minPx = 10` and `observeResize = false` and omitting the rest. -/
theorem spec_C5_options_merge_witness :
    (mergeOptions1 ⟨some 10, none, none, some false, none, none⟩).minPx = 10 ∧
    (mergeOptions1 ⟨some 10, none, none, some false, none, none⟩).maxPx = 512 ∧
    (mergeOptions1 ⟨some 10, none, none, some false, none, none⟩).observeResize = false ∧
    (mergeOptions1 ⟨some 10, none, none, some false, none, none⟩).observeMutations = true ∧
    (mergeOptions1 ⟨some 10, none, none, some false, none, none⟩).debounceMs = 100 ∧
    (mergeOptions2 ⟨some 10, none, none, some false, none, none⟩).minPx = 10 ∧
    (mergeOptions2 ⟨some 10, none, none, some false, none, none⟩).refitOnFontLoad = true := by
  obtain ⟨h1, h2, h3, h4, h5, h6, h7, h8, h9, h10, h11, h12, h13, h14, h15, h16, h17, h18, h19,
    h20, h21, h22⟩ := spec_C5_options_merge ⟨some 10, none, none, some false, none, none⟩ 10 false
  exact ⟨h1 rfl, h4 rfl, h5 rfl, h8 rfl, h10 rfl, h11 rfl, h22 rfl⟩

/-- Claim C6: `fitFontToContainer` throws synchronously if and only if the
target or the container is absent, in both variants; when it throws, no
session is created (hence no observer is subscribed) and the target is
untouched. -/
theorem spec_C6_precondition (tp cp : Bool) (u : FitUserOptions) (env : Env)
    (t : TargetState) :
    (((fitFontToContainer_inplace tp cp u env t).threw = true ↔
        (tp = false ∨ cp = false)) ∧
      ((fitFontToContainer_inplace tp cp u env t).threw = true →
        (fitFontToContainer_inplace tp cp u env t).session = none ∧
        (fitFontToContainer_inplace tp cp u env t).target = t)) ∧
    (((fitFontToContainer_clone tp cp u env t).threw = true ↔
        (tp = false ∨ cp = false)) ∧
      ((fitFontToContainer_clone tp cp u env t).threw = true →
        (fitFontToContainer_clone tp cp u env t).session = none ∧
        (fitFontToContainer_clone tp cp u env t).target = t)) := by
  by_cases h : tp = false ∨ cp = false <;>
    simp [fitFontToContainer_inplace, fitFontToContainer_clone, h]

/-- Witness for claim C6: a missing target throws in both variants with no
session and an untouched target, and present target and container do not
throw. -/
theorem spec_C6_precondition_witness :
    (fitFontToContainer_inplace false true ⟨none, none, none, none, none, none⟩
        ⟨true, true, true⟩ ⟨none, none⟩).threw = true ∧
    (fitFontToContainer_inplace false true ⟨none, none, none, none, none, none⟩
        ⟨true, true, true⟩ ⟨none, none⟩).session = none ∧
    (fitFontToContainer_inplace false true ⟨none, none, none, none, none, none⟩
        ⟨true, true, true⟩ ⟨none, none⟩).target = ⟨none, none⟩ ∧
    (fitFontToContainer_clone false true ⟨none, none, none, none, none, none⟩
        ⟨true, true, true⟩ ⟨none, none⟩).threw = true ∧
    (fitFontToContainer_clone false true ⟨none, none, none, none, none, none⟩
        ⟨true, true, true⟩ ⟨none, none⟩).session = none ∧
    (fitFontToContainer_clone false true ⟨none, none, none, none, none, none⟩
        ⟨true, true, true⟩ ⟨none, none⟩).target = ⟨none, none⟩ ∧
    (fitFontToContainer_inplace true true ⟨none, none, none, none, none, none⟩
        ⟨true, true, true⟩ ⟨none, none⟩).threw = false ∧
    (fitFontToContainer_clone true true ⟨none, none, none, none, none, none⟩
        ⟨true, true, true⟩ ⟨none, none⟩).threw = false := by
  have h := spec_C6_precondition false true ⟨none, none, none, none, none, none⟩
    ⟨true, true, true⟩ ⟨none, none⟩
  have ht := h.1.1.mpr (Or.inl rfl)
  have ht' := h.2.1.mpr (Or.inl rfl)
  exact ⟨ht, (h.1.2 ht).1, (h.1.2 ht).2, ht', (h.2.2 ht').1, (h.2.2 ht').2,
    by decide, by decide⟩

/-- Claim C7: when the measurement inside `refit()` throws, the exception
propagates out of `refit()` unswallowed, the busy flag is nevertheless
cleared by the `finally`, and a subsequent `refit()` with a returning
measurement is not guarded and applies its result, in both variants. -/
theorem spec_C7_throw_propagates {E : Type} (fits fits' : Int → Except E Bool)
    (cw ch : Int) (minPx maxPx : ℚ) (e e' : E)
    (hthrow : computeBestFontSizeE_inplace fits cw ch minPx maxPx = Except.error e)
    (hthrow' : computeBestFontSizeE_clone fits' cw ch minPx maxPx = Except.error e') :
    refitE false (computeBestFontSizeE_inplace fits cw ch minPx maxPx) =
      ⟨false, none, some e⟩ ∧
    refitE false (computeBestFontSizeE_clone fits' cw ch minPx maxPx) =
      ⟨false, none, some e'⟩ ∧
    (∀ c : ℚ,
      refitE (refitE false (computeBestFontSizeE_inplace fits cw ch minPx maxPx)).busyAfter
        (Except.ok (ε := E) c) = ⟨false, some c, none⟩) := by
  rw [hthrow, hthrow']
  exact ⟨rfl, rfl, fun c => rfl⟩

/-- Witness for claim C7 with a measurement oracle whose very first layout
read throws. -/
theorem spec_C7_throw_propagates_witness :
    (computeBestFontSizeE_inplace (fun _ => Except.error 7) 50 50 (8 : ℚ) (8 : ℚ) =
        Except.error 7 ∧
      computeBestFontSizeE_clone (fun _ => Except.error 7) 50 50 (8 : ℚ) (8 : ℚ) =
        Except.error 7) ∧
    refitE false (computeBestFontSizeE_inplace (fun _ => Except.error 7) 50 50 (8 : ℚ) (8 : ℚ)) =
      ⟨false, none, some 7⟩ ∧
    refitE false (computeBestFontSizeE_clone (fun _ => Except.error 7) 50 50 (8 : ℚ) (8 : ℚ)) =
      ⟨false, none, some 7⟩ ∧
    (∀ c : ℚ,
      refitE (refitE false (computeBestFontSizeE_inplace (fun _ => Except.error 7)
          50 50 (8 : ℚ) (8 : ℚ))).busyAfter (Except.ok (ε := ℕ) c) = ⟨false, some c, none⟩) :=
  ⟨⟨by rfl, by rfl⟩,
    (spec_C7_throw_propagates (fun _ => Except.error 7) (fun _ => Except.error 7)
      50 50 (8 : ℚ) (8 : ℚ) 7 7 (by rfl) (by rfl)).1,
    (spec_C7_throw_propagates (fun _ => Except.error 7) (fun _ => Except.error 7)
      50 50 (8 : ℚ) (8 : ℚ) 7 7 (by rfl) (by rfl)).2.1,
    (spec_C7_throw_propagates (fun _ => Except.error 7) (fun _ => Except.error 7)
      50 50 (8 : ℚ) (8 : ℚ) 7 7 (by rfl) (by rfl)).2.2⟩

/-- Claim C8: calling `refit()` while a cycle is in progress (busy flag
set) returns immediately with no effect: the session and target are
unchanged, and the outcome is independent of the measurement — even a
throwing measurement surfaces nothing, so no search is run and at most one
cycle is ever in progress. -/
theorem spec_C8_busy_guard {E : Type} (compute : ℚ) (computeRes : Except E ℚ)
    (s : Session) (t : TargetState) (hbusy : s.busy = true) :
    refitPure compute s t = (s, t) ∧
    refitE s.busy computeRes = ⟨true, none, none⟩ := by
  rw [hbusy]
  unfold refitPure refitE
  rw [hbusy]
  exact ⟨by simp, by simp⟩

/-- Witness for claim C8 on a busy session, against a measurement that
would throw if it were consulted. -/
theorem spec_C8_busy_guard_witness :
    ((⟨true, true, true, false, false, false, false⟩ : Session).busy = true) ∧
    refitPure (5 : ℚ) ⟨true, true, true, false, false, false, false⟩ ⟨some 9, some 9⟩ =
      (⟨true, true, true, false, false, false, false⟩, ⟨some 9, some 9⟩) ∧
    refitE (⟨true, true, true, false, false, false, false⟩ : Session).busy
      (Except.error (ε := ℕ) 7 (α := ℚ)) = ⟨true, none, none⟩ :=
  ⟨rfl,
    (spec_C8_busy_guard (5 : ℚ) (Except.error (ε := ℕ) 7 (α := ℚ))
      ⟨true, true, true, false, false, false, false⟩ ⟨some 9, some 9⟩ rfl).1,
    (spec_C8_busy_guard (5 : ℚ) (Except.error (ε := ℕ) 7 (α := ℚ))
      ⟨true, true, true, false, false, false, false⟩ ⟨some 9, some 9⟩ rfl).2⟩

/-- Claim C9 (amended): `disconnect()` is idempotent and unsubscribes the
resize observer, the mutation observer and the window-resize fallback, so
that after it returns, firing the container's resize signal, the window
resize signal or a content mutation causes no state change and no further
font-size mutation on the target; however it does not cancel a debounced
invocation already pending at disconnect time (nor the pending rAF initial
refit, nor the font-load hook), which still mutates the target when its
timer fires (see the counterexample and claim C10). -/
theorem spec_C9_disconnect (compute : ℚ) (s : Session) (t t' : TargetState) :
    stepWith compute Event.callDisconnect
        (stepWith compute Event.callDisconnect (s, t)) =
      stepWith compute Event.callDisconnect (s, t) ∧
    (stepWith compute Event.callDisconnect (s, t)).1.roActive = false ∧
    (stepWith compute Event.callDisconnect (s, t)).1.moActive = false ∧
    (stepWith compute Event.callDisconnect (s, t)).1.winListenerActive = false ∧
    stepWith compute Event.containerResized
        ((stepWith compute Event.callDisconnect (s, t)).1, t') =
      ((stepWith compute Event.callDisconnect (s, t)).1, t') ∧
    stepWith compute Event.windowResized
        ((stepWith compute Event.callDisconnect (s, t)).1, t') =
      ((stepWith compute Event.callDisconnect (s, t)).1, t') ∧
    stepWith compute Event.contentMutated
        ((stepWith compute Event.callDisconnect (s, t)).1, t') =
      ((stepWith compute Event.callDisconnect (s, t)).1, t') := by
  exact ⟨rfl, rfl, rfl, rfl, rfl, rfl, rfl⟩

/-- Counterexample to claim C9 as stated: a session built with the default
options in a fully capable environment observes a container resize (which
arms the debounce timer), then `disconnect()` unsubscribes everything —
yet when the already-armed timer fires, the refit still runs and mutates
the target's font-size and marker.  The pending debounced invocation's
effect is not cancelled. -/
theorem spec_C9_counterexample :
    (runEvents (computeBestFontSize_clone (fun s => cloneFits s 20) 100 50 (8 : ℚ) (32 : ℚ))
        [Event.containerResized, Event.callDisconnect]
        (mkSession2 (mergeOptions2 ⟨none, none, none, none, none, none⟩) ⟨true, true, true⟩,
          ⟨none, none⟩)).1.roActive = false ∧
    (runEvents (computeBestFontSize_clone (fun s => cloneFits s 20) 100 50 (8 : ℚ) (32 : ℚ))
        [Event.containerResized, Event.callDisconnect]
        (mkSession2 (mergeOptions2 ⟨none, none, none, none, none, none⟩) ⟨true, true, true⟩,
          ⟨none, none⟩)).1.moActive = false ∧
    (runEvents (computeBestFontSize_clone (fun s => cloneFits s 20) 100 50 (8 : ℚ) (32 : ℚ))
        [Event.containerResized, Event.callDisconnect]
        (mkSession2 (mergeOptions2 ⟨none, none, none, none, none, none⟩) ⟨true, true, true⟩,
          ⟨none, none⟩)).1.winListenerActive = false ∧
    (runEvents (computeBestFontSize_clone (fun s => cloneFits s 20) 100 50 (8 : ℚ) (32 : ℚ))
        [Event.containerResized, Event.callDisconnect]
        (mkSession2 (mergeOptions2 ⟨none, none, none, none, none, none⟩) ⟨true, true, true⟩,
          ⟨none, none⟩)).1.debouncePending = true ∧
    (runEvents (computeBestFontSize_clone (fun s => cloneFits s 20) 100 50 (8 : ℚ) (32 : ℚ))
        [Event.containerResized, Event.callDisconnect, Event.timerFired]
        (mkSession2 (mergeOptions2 ⟨none, none, none, none, none, none⟩) ⟨true, true, true⟩,
          ⟨none, none⟩)).2.fontSizePx = some 20 ∧
    (runEvents (computeBestFontSize_clone (fun s => cloneFits s 20) 100 50 (8 : ℚ) (32 : ℚ))
        [Event.containerResized, Event.callDisconnect, Event.timerFired]
        (mkSession2 (mergeOptions2 ⟨none, none, none, none, none, none⟩) ⟨true, true, true⟩,
          ⟨none, none⟩)).2.fittedFontPx = some (20 : ℚ) := by
  decide

/-- Claim C10: in either variant, a debounced trigger whose timer has not
yet fired when `disconnect()` is called survives the disconnect — the
pending flag stays set and the scheduled rAF refit stays pending — and
when the timer then fires the refit still executes, mutating the target's
`style.fontSize` and `dataset.fittedFontPx` marker. -/
theorem spec_C10_timer_survives (fits fits' : Int → Bool) (cw ch : Int)
    (minPx maxPx : ℚ) (s : Session) (t : TargetState)
    (hpend : s.debouncePending = true) (hbusy : s.busy = false) :
    ((step_inplace fits cw ch minPx maxPx Event.callDisconnect (s, t)).1.debouncePending =
        true ∧
      (step_inplace fits cw ch minPx maxPx Event.callDisconnect (s, t)).1.rafPending =
        s.rafPending ∧
      (step_inplace fits cw ch minPx maxPx Event.timerFired
          (step_inplace fits cw ch minPx maxPx Event.callDisconnect (s, t))).2.fontSizePx =
        some (max 1 ⌊computeBestFontSize_inplace fits cw ch minPx maxPx⌋) ∧
      (step_inplace fits cw ch minPx maxPx Event.timerFired
          (step_inplace fits cw ch minPx maxPx Event.callDisconnect (s, t))).2.fittedFontPx =
        some (computeBestFontSize_inplace fits cw ch minPx maxPx)) ∧
    ((step_clone fits' cw ch minPx maxPx Event.callDisconnect (s, t)).1.debouncePending =
        true ∧
      (step_clone fits' cw ch minPx maxPx Event.callDisconnect (s, t)).1.rafPending =
        s.rafPending ∧
      (step_clone fits' cw ch minPx maxPx Event.timerFired
          (step_clone fits' cw ch minPx maxPx Event.callDisconnect (s, t))).2.fontSizePx =
        some (max 1 ⌊computeBestFontSize_clone fits' cw ch minPx maxPx⌋) ∧
      (step_clone fits' cw ch minPx maxPx Event.timerFired
          (step_clone fits' cw ch minPx maxPx Event.callDisconnect (s, t))).2.fittedFontPx =
        some (computeBestFontSize_clone fits' cw ch minPx maxPx)) := by
  constructor <;>
    exact ⟨hpend, rfl, by
        simp [step_inplace, step_clone, stepWith, refitPure, setFontSizePx, hpend, hbusy],
      by simp [step_inplace, step_clone, stepWith, refitPure, setFontSizePx, hpend, hbusy]⟩

/-- Witness for claim C10 on a concrete session with an armed debounce
timer. -/
theorem spec_C10_timer_survives_witness :
    ((⟨false, true, true, false, false, true, true⟩ : Session).debouncePending = true ∧
      (⟨false, true, true, false, false, true, true⟩ : Session).busy = false) ∧
    (step_clone (fun s => cloneFits s 20) 100 50 (8 : ℚ) (32 : ℚ) Event.callDisconnect
        (⟨false, true, true, false, false, true, true⟩, ⟨none, none⟩)).1.debouncePending =
      true ∧
    (step_clone (fun s => cloneFits s 20) 100 50 (8 : ℚ) (32 : ℚ) Event.timerFired
        (step_clone (fun s => cloneFits s 20) 100 50 (8 : ℚ) (32 : ℚ) Event.callDisconnect
          (⟨false, true, true, false, false, true, true⟩, ⟨none, none⟩))).2.fittedFontPx =
      some (computeBestFontSize_clone (fun s => cloneFits s 20) 100 50 (8 : ℚ) (32 : ℚ)) :=
  ⟨⟨rfl, rfl⟩,
    (spec_C10_timer_survives (fun s => cloneFits s 20) (fun s => cloneFits s 20) 100 50
      (8 : ℚ) (32 : ℚ) ⟨false, true, true, false, false, true, true⟩ ⟨none, none⟩ rfl rfl).2.1,
    (spec_C10_timer_survives (fun s => cloneFits s 20) (fun s => cloneFits s 20) 100 50
      (8 : ℚ) (32 : ℚ) ⟨false, true, true, false, false, true, true⟩ ⟨none, none⟩ rfl rfl).2.2.2.2⟩
